import Mathlib

set_option linter.unusedVariables false

/-!
Shallow embedding of the MeshConverter pipeline (src/MeshLoader.cpp and
src/main.cpp).  Floating-point values are modelled as rationals: the loader
only copies, compares and zero-tests weights and attribute components, so the
embedding is exact on the rational inputs considered here.  External
collaborators (the assimp importer and the meshoptimizer library) are modelled
from the specification at their interface boundary; everything else is a
direct translation of the source.
-/

deriving instance DecidableEq for Except

/-- asdx two-component vector (asdx::Vector2). -/
structure Vec2 where
  x : ℚ
  y : ℚ
  deriving DecidableEq, Inhabited

/-- Three-component vector; used both for aiVec3D and asdx::Vec3,
which carry the same x, y, z payload. -/
structure Vec3 where
  x : ℚ
  y : ℚ
  z : ℚ
  deriving DecidableEq, Inhabited

/-- asdx four-component vector (asdx::Vector4); also carries bone weights. -/
structure Vec4 where
  x : ℚ
  y : ℚ
  z : ℚ
  w : ℚ
  deriving DecidableEq, Inhabited

/-- aiColor4D: an RGBA color with rational channels. -/
structure Color4 where
  r : ℚ
  g : ℚ
  b : ℚ
  a : ℚ
  deriving DecidableEq, Inhabited

/-- asdx::ResBoneIndex: four 16-bit bone ordinals (modelled as Nat). -/
structure BoneIndex4 where
  Index0 : Nat
  Index1 : Nat
  Index2 : Nat
  Index3 : Nat
  deriving DecidableEq, Inhabited

/-- Modelled from the spec: the packed texture-coordinate encoding produced by
asdx::EncodeTexCoord (the asdx headers are not under src/).  The spec leaves
the packing (unorm pair vs half-float pair) open, so the encoding is modelled
as an injective carrier of the two components; no claim depends on the
quantization. -/
structure EncodedTexCoord where
  u : ℚ
  v : ℚ
  deriving DecidableEq, Inhabited

/-- Modelled from the spec: the packed tangent-frame word produced by
asdx::EncodeTBN (asdx headers absent from src/).  Modelled as an injective
carrier of the normal, tangent and flag inputs; the spec only requires the
construction to be deterministic in its inputs. -/
structure EncodedTBN where
  normal : Vec3
  tangent : Vec3
  flag : Nat
  deriving DecidableEq, Inhabited

/-- A packed unorm8x4 color word, one byte per channel. -/
structure UnormColor where
  r : Nat
  g : Nat
  b : Nat
  a : Nat
  deriving DecidableEq, Inhabited

/-- Clamp a rational to the unit interval. -/
def saturate (q : ℚ) : ℚ := max 0 (min 1 q)

/-- Modelled from the spec: one unorm8 channel, a float in the unit interval
scaled to 0..255 (rounding to nearest; the spec fixes only the unorm range).
For s = num/den in the unit interval this computes floor(s * 255 + 1/2),
written over the numerator and denominator so it evaluates by reduction. -/
def unorm8 (q : ℚ) : Nat :=
  let s := saturate q
  (s.num.toNat * 510 + s.den) / (2 * s.den)

/-- Modelled from the spec: asdx::EncodeTexCoord (asdx headers absent). -/
def EncodeTexCoord (v : Vec2) : EncodedTexCoord := ⟨v.x, v.y⟩

/-- Modelled from the spec: asdx::EncodeTBN (asdx headers absent). -/
def EncodeTBN (n t : Vec3) (flag : Nat) : EncodedTBN := ⟨n, t, flag⟩

/-- Modelled from the spec: asdx::ToUnorm, packing float RGBA into unorm8x4. -/
def ToUnorm (c : Vec4) : UnormColor := ⟨unorm8 c.x, unorm8 c.y, unorm8 c.z, unorm8 c.w⟩

/-- asdx::ResMeshVertex: the combined static-mesh vertex written by
ParseStaticMesh (MeshLoader.cpp lines 116-122). -/
structure ResMeshVertex where
  Position : Vec3
  TexCoord0 : EncodedTexCoord
  TexCoord1 : EncodedTexCoord
  TexCoord2 : EncodedTexCoord
  TexCoord3 : EncodedTexCoord
  TangentSpace : EncodedTBN
  Color : UnormColor
  deriving DecidableEq, Inhabited

/-- asdx::ResSkinningMeshVertex: the combined skinning vertex written by
ParseSkinningMesh (MeshLoader.cpp lines 307-315). -/
structure ResSkinningMeshVertex where
  Position : Vec3
  TexCoord0 : EncodedTexCoord
  TexCoord1 : EncodedTexCoord
  TexCoord2 : EncodedTexCoord
  TexCoord3 : EncodedTexCoord
  TangentSpace : EncodedTBN
  Color : UnormColor
  BoneIndex : BoneIndex4
  BoneWeights : Vec4
  deriving DecidableEq, Inhabited

/-- The source mesh as handed over by the importer (aiMesh), restricted to the
members MeshLoader.cpp reads.  Absent channels (null aiMesh pointers) are
`none`; mBones holds, per bone, its list of (mVertexId, mWeight) pairs. -/
structure AiMesh where
  mVertices : List Vec3
  mNormals : List Vec3
  mTextureCoords0 : Option (List Vec3)
  mTextureCoords1 : Option (List Vec3)
  mTextureCoords2 : Option (List Vec3)
  mTextureCoords3 : Option (List Vec3)
  mTangents : Option (List Vec3)
  mColors0 : Option (List Color4)
  mFaces : List (List Nat)
  mBones : List (List (Nat × ℚ))
  deriving DecidableEq, Inhabited

/-- aiVec3D zero3D(0.0f, 0.0f, 0.0f) from MeshLoader.cpp line 96. -/
def zero3D : Vec3 := ⟨0, 0, 0⟩

/-- aiColor4D white(1.0f, 1.0f, 1.0f, 1.0f) from MeshLoader.cpp line 97. -/
def white : Color4 := ⟨1, 1, 1, 1⟩

/-- The per-vertex channel select `(mesh->HasX) ? &(array[i]) : &zero3D`
used on MeshLoader.cpp lines 106-110. -/
def optVec3At (ch : Option (List Vec3)) (i : Nat) : Vec3 :=
  match ch with
  | some l => l.getD i zero3D
  | none => zero3D

/-- The per-vertex color select `(HasVertexColors(0)) ? &(mColors[0][i]) : &white`
from MeshLoader.cpp line 111. -/
def optColorAt (ch : Option (List Color4)) (i : Nat) : Color4 :=
  match ch with
  | some l => l.getD i white
  | none => white

/-- One iteration of the vertex-building loop of ParseStaticMesh
(MeshLoader.cpp lines 102-123). -/
def buildVertex (m : AiMesh) (i : Nat) : ResMeshVertex :=
  let p := m.mVertices.getD i zero3D
  let n := m.mNormals.getD i zero3D
  let t0 := optVec3At m.mTextureCoords0 i
  let t1 := optVec3At m.mTextureCoords1 i
  let t2 := optVec3At m.mTextureCoords2 i
  let t3 := optVec3At m.mTextureCoords3 i
  let tan := optVec3At m.mTangents i
  let c := optColorAt m.mColors0 i
  { Position := ⟨p.x, p.y, p.z⟩
    TexCoord0 := EncodeTexCoord ⟨t0.x, t0.y⟩
    TexCoord1 := EncodeTexCoord ⟨t1.x, t1.y⟩
    TexCoord2 := EncodeTexCoord ⟨t2.x, t2.y⟩
    TexCoord3 := EncodeTexCoord ⟨t3.x, t3.y⟩
    TangentSpace := EncodeTBN ⟨n.x, n.y, n.z⟩ ⟨tan.x, tan.y, tan.z⟩ 0
    Color := ToUnorm ⟨c.r, c.g, c.b, c.a⟩ }

/-- The whole vertex-building loop of ParseStaticMesh (lines 100-123):
one combined vertex per source vertex. -/
def buildVertices (m : AiMesh) : List ResMeshVertex :=
  (List.range m.mVertices.length).map (buildVertex m)

/-- The minimum-weight scan of MeshLoader.cpp lines 356-372: starts from
slot x, strictly-less comparisons, so earlier slots win ties.  Returns the
minimum weight together with its slot index. -/
def minScan (bw : Vec4) : ℚ × Nat :=
  let m0 : ℚ × Nat := (bw.x, 0)
  let m1 : ℚ × Nat := if m0.1 > bw.y then (bw.y, 1) else m0
  let m2 : ℚ × Nat := if m1.1 > bw.z then (bw.z, 2) else m1
  let m3 : ℚ × Nat := if m2.1 > bw.w then (bw.w, 3) else m2
  m3

/-- One incoming (boneIndex, boneWeight) contribution applied to a vertex:
the body of the inner loop of ParseSkinningMesh, MeshLoader.cpp lines 326-397.
Note line 350 of the source: the fourth fill branch sets BoneIndex.Index3 but
writes the weight to BoneWeights.z, exactly as translated here. -/
def addBoneWeight (vertex : ResSkinningMeshVertex) (boneIndex : Nat) (boneWeight : ℚ) :
    ResSkinningMeshVertex :=
  if vertex.BoneWeights.x = 0 then
    { vertex with
      BoneIndex := { vertex.BoneIndex with Index0 := boneIndex }
      BoneWeights := { vertex.BoneWeights with x := boneWeight } }
  else if vertex.BoneWeights.y = 0 then
    { vertex with
      BoneIndex := { vertex.BoneIndex with Index1 := boneIndex }
      BoneWeights := { vertex.BoneWeights with y := boneWeight } }
  else if vertex.BoneWeights.z = 0 then
    { vertex with
      BoneIndex := { vertex.BoneIndex with Index2 := boneIndex }
      BoneWeights := { vertex.BoneWeights with z := boneWeight } }
  else if vertex.BoneWeights.w = 0 then
    { vertex with
      BoneIndex := { vertex.BoneIndex with Index3 := boneIndex }
      BoneWeights := { vertex.BoneWeights with z := boneWeight } }
  else
    let m := minScan vertex.BoneWeights
    if m.1 > boneWeight then vertex
    else if m.2 = 0 then
      { vertex with
        BoneIndex := { vertex.BoneIndex with Index0 := boneIndex }
        BoneWeights := { vertex.BoneWeights with x := boneWeight } }
    else if m.2 = 1 then
      { vertex with
        BoneIndex := { vertex.BoneIndex with Index1 := boneIndex }
        BoneWeights := { vertex.BoneWeights with y := boneWeight } }
    else if m.2 = 2 then
      { vertex with
        BoneIndex := { vertex.BoneIndex with Index2 := boneIndex }
        BoneWeights := { vertex.BoneWeights with z := boneWeight } }
    else if m.2 = 3 then
      { vertex with
        BoneIndex := { vertex.BoneIndex with Index3 := boneIndex }
        BoneWeights := { vertex.BoneWeights with w := boneWeight } }
    else vertex

/-- Overwrite one bone slot of a vertex with the given index and weight;
used to state what the eviction branch of the source does. -/
def setSlot (vertex : ResSkinningMeshVertex) (idx boneIndex : Nat) (boneWeight : ℚ) :
    ResSkinningMeshVertex :=
  if idx = 0 then
    { vertex with
      BoneIndex := { vertex.BoneIndex with Index0 := boneIndex }
      BoneWeights := { vertex.BoneWeights with x := boneWeight } }
  else if idx = 1 then
    { vertex with
      BoneIndex := { vertex.BoneIndex with Index1 := boneIndex }
      BoneWeights := { vertex.BoneWeights with y := boneWeight } }
  else if idx = 2 then
    { vertex with
      BoneIndex := { vertex.BoneIndex with Index2 := boneIndex }
      BoneWeights := { vertex.BoneWeights with z := boneWeight } }
  else if idx = 3 then
    { vertex with
      BoneIndex := { vertex.BoneIndex with Index3 := boneIndex }
      BoneWeights := { vertex.BoneWeights with w := boneWeight } }
  else vertex

/-- Fold a list of (boneIndex, weight) contributions arriving at one vertex,
in arrival order, through the assignment step of lines 326-397. -/
def accumBoneWeights (v : ResSkinningMeshVertex) (l : List (Nat × ℚ)) :
    ResSkinningMeshVertex :=
  l.foldl (fun acc p => addBoneWeight acc p.1 p.2) v

/-- A skinning vertex with every field zeroed, matching the state of a vertex
after lines 314-315 (BoneIndex all 0, BoneWeights all 0) with zero attributes. -/
def zeroSkinVertex : ResSkinningMeshVertex :=
  { Position := ⟨0, 0, 0⟩
    TexCoord0 := ⟨0, 0⟩
    TexCoord1 := ⟨0, 0⟩
    TexCoord2 := ⟨0, 0⟩
    TexCoord3 := ⟨0, 0⟩
    TangentSpace := ⟨⟨0, 0, 0⟩, ⟨0, 0, 0⟩, 0⟩
    Color := ⟨0, 0, 0, 0⟩
    BoneIndex := ⟨0, 0, 0, 0⟩
    BoneWeights := ⟨0, 0, 0, 0⟩ }

/-- The triangle-index flattening loop of ParseStaticMesh (MeshLoader.cpp
lines 129-137) and ParseSkinningMesh (lines 405-413): each face contributes
its three corner indices.  The `assert(face.mNumIndices == 3)` on lines 132
and 408 is modelled as a fatal check: a face with a different corner count
makes the conversion fail (an assertion failure aborts the whole run). -/
def flattenFaces : List (List Nat) → Except String (List Nat)
  | [] => Except.ok []
  | face :: rest =>
    if face.length = 3 then
      match flattenFaces rest with
      | Except.error e => Except.error e
      | Except.ok l => Except.ok (face.getD 0 0 :: face.getD 1 0 :: face.getD 2 0 :: l)
    else Except.error "assertion failed: face.mNumIndices == 3"

/-- Writing `src.length` elements through a raw pointer into a std::vector of
fixed size `dest.length`: the vector keeps its size, the written prefix lands
in the vector and everything past its end is lost.  This models how the
meshoptimizer calls in MeshLoader.cpp write into pre-sized vectors. -/
def writeInto {α : Type} (dest src : List α) : List α :=
  src.take dest.length ++ dest.drop src.length

/-- std::vector::resize - keeps the existing prefix, pads with `d`. -/
def listResize {α : Type} (l : List α) (n : Nat) (d : α) : List α :=
  l.take n ++ List.replicate (n - l.length) d

/-- Append `v` to `acc` unless already present (set union keeping order). -/
def addUnique {α : Type} [DecidableEq α] (acc : List α) (v : α) : List α :=
  if v ∈ acc then acc else acc ++ [v]

/-- The distinct elements of `l` in first-appearance order. -/
def firstOccs {α : Type} [DecidableEq α] (l : List α) : List α :=
  l.foldl addUnique []

/-- Index of the first occurrence of `v` in `l` (length of `l` if absent). -/
def idxOfV {α : Type} [DecidableEq α] : List α → α → Nat
  | [], _ => 0
  | x :: rest, v => if x = v then 0 else idxOfV rest v + 1

/-- Modelled from the spec: the Mesh Optimizer collaborator's
GenerateVertexRemap - merges bit-identical vertices and returns the remap
table (one entry per input vertex) together with the unique-vertex count.
Unique indices are assigned in first-appearance order.  Only the returned
unique count is observable downstream in this source (the remap itself is
written into a zero-length buffer, see optimizeBlock). -/
def meshopt_generateVertexRemap {α : Type} [DecidableEq α] (vertices : List α) :
    List Nat × Nat :=
  let uniq := firstOccs vertices
  (vertices.map (idxOfV uniq), uniq.length)

/-- Modelled from the spec: the Mesh Optimizer collaborator's RemapIndexBuffer
output stream - every index replaced by its remapped value. -/
def meshopt_remapIndexBuffer (srcIndices remap : List Nat) : List Nat :=
  srcIndices.map (fun i => remap.getD i 0)

/-- Modelled from the spec: the Mesh Optimizer collaborator's RemapVertexBuffer
output stream - entry j receives the source vertex that remaps to j. -/
def meshopt_remapVertexBuffer {α : Type} [Inhabited α] (src : List α)
    (remap : List Nat) (count : Nat) : List α :=
  (List.range count).map (fun j => src.getD (idxOfV remap j) default)

/-- Modelled from the spec: the Mesh Optimizer collaborator's
OptimizeVertexCache output.  The spec leaves the reordering algorithm to the
collaborator; it is modelled as the identity permutation since no claim
depends on the order chosen. -/
def meshopt_optimizeVertexCache (indices : List Nat) : List Nat := indices

/-- The distinct vertex references of an index stream in first-use order. -/
def firstRefs (indices : List Nat) : List Nat := firstOccs indices

/-- Modelled from the spec: the Mesh Optimizer collaborator's
OptimizeVertexFetch - writes the referenced vertices in first-use order into
the destination buffer and renumbers the index stream in place.  Both writes
go through raw pointers into already-sized vectors, hence writeInto. -/
def meshopt_optimizeVertexFetch {α : Type} [Inhabited α] (dest : List α)
    (indices : List Nat) (src : List α) : List α × List Nat :=
  let order := firstRefs indices
  (writeInto dest (order.map (fun j => src.getD j default)),
   writeInto indices (indices.map (idxOfV order)))

/-- Result of the optimization block: the mesh's vertex stream and the raw
triangle index stream after dedup/cache/fetch optimization. -/
structure OptOut (α : Type) where
  vertices : List α
  indices : List Nat
  deriving DecidableEq

/-- The optimization block of ParseStaticMesh (MeshLoader.cpp lines 140-201)
and ParseSkinningMesh (lines 416-477), which are line-identical up to the
vertex type.  `meshletIndices` is `dstMesh.Indices`, still empty at this
point in the source; the block sizes its `remap` and `indices` vectors from
it (lines 141 and 153), so both are zero-length, the meshoptimizer writes land
past the buffers, and `dstMeshIndices.resize(indices.size())` on line 176
shrinks the raw index list to zero. -/
def optimizeBlock {α : Type} [DecidableEq α] [Inhabited α]
    (meshVertices : List α) (dstMeshIndices : List Nat) (meshletIndices : List Nat) :
    OptOut α :=
  -- std::vector<uint32_t> remap(dstMesh.Indices.size());
  let remap0 : List Nat := List.replicate meshletIndices.length 0
  let gen := meshopt_generateVertexRemap meshVertices
  let vertexCount := gen.2
  -- the remap table is written through remap.data()
  let remap := writeInto remap0 gen.1
  -- std::vector<V> vertices(vertexCount); std::vector<uint32_t> indices(dstMesh.Indices.size());
  let vertices0 : List α := List.replicate vertexCount default
  let indices0 : List Nat := List.replicate meshletIndices.length 0
  let indices1 := writeInto indices0 (meshopt_remapIndexBuffer dstMeshIndices remap)
  let vertices1 := writeInto vertices0 (meshopt_remapVertexBuffer meshVertices remap vertexCount)
  -- dstMesh.Vertices.resize(vertices.size()); dstMeshIndices.resize(indices.size());
  let meshVertices1 := listResize meshVertices vertices1.length default
  let rawIndices1 := listResize dstMeshIndices indices1.length 0
  -- meshopt_optimizeVertexCache(dstMeshIndices.data(), indices.data(), indices.size(), vertexCount);
  let rawIndices2 := writeInto rawIndices1 (meshopt_optimizeVertexCache indices1)
  -- meshopt_optimizeVertexFetch(dstMesh.Vertices.data(), dstMeshIndices.data(), ..., vertices.data(), ...);
  let fetch := meshopt_optimizeVertexFetch meshVertices1 rawIndices2 vertices1
  ⟨fetch.1, fetch.2⟩

/-- const size_t kMaxVertices = 64 (MeshLoader.cpp lines 205 and 481). -/
def kMaxVertices : Nat := 64

/-- const size_t kMaxPrimitives = 124 (MeshLoader.cpp lines 206 and 482). -/
def kMaxPrimitives : Nat := 124

/-- One cluster returned by the Mesh Optimizer's BuildMeshlets: a local
vertex list (meshlet.vertices, of length meshlet.vertex_count) and local
triangle corner triples (meshlet.indices, of length meshlet.triangle_count). -/
structure MeshoptMeshlet where
  vertices : List Nat
  triangles : List (Nat × Nat × Nat)
  deriving DecidableEq, Inhabited

/-- asdx::ResPrimitive: one triangle of local meshlet corner indices. -/
structure ResPrimitive where
  Index0 : Nat
  Index1 : Nat
  Index2 : Nat
  deriving DecidableEq, Inhabited

/-- asdx::ResMeshlet as filled on MeshLoader.cpp lines 250-254. -/
structure ResMeshlet where
  VertexCount : Nat
  VertexOffset : Nat
  PrimitiveCount : Nat
  PrimitiveOffset : Nat
  deriving DecidableEq, Inhabited

/-- Modelled from the spec: the per-meshlet culling descriptor (bounding
sphere plus packed unorm4 normal cone) the spec's data model declares; the
asdx model headers are not under src/.  The source computes
meshopt_computeMeshletBounds into a local that is never read (lines 243-247
and 519-523), so no value of this type is ever constructed by the pipeline. -/
structure CullingInfo where
  SphereCenter : Vec3
  SphereRadius : ℚ
  NormalCone : UnormColor
  deriving DecidableEq, Inhabited

/-- The mesh-global arrays filled by the meshlet loop: Indices, Primitives,
Meshlets, and the CullingInfos array the code never touches. -/
structure MeshletArrays where
  Indices : List Nat
  Primitives : List ResPrimitive
  Meshlets : List ResMeshlet
  CullingInfos : List CullingInfo
  deriving DecidableEq, Inhabited

/-- The corner permutation of MeshLoader.cpp lines 237-239 (and 513-515):
tris.Index1 = corner 0, tris.Index0 = corner 1, tris.Index2 = corner 2. -/
def swapTri (t : Nat × Nat × Nat) : ResPrimitive :=
  { Index0 := t.2.1, Index1 := t.1, Index2 := t.2.2 }

/-- One iteration of the meshlet loop (MeshLoader.cpp lines 226-257, identical
on lines 502-533): record the current array sizes as offsets, append the
cluster's vertex list to Indices, append its triangles to Primitives with the
(index1, index0, index2) field permutation, and push the meshlet descriptor.
The bounds returned by meshopt_computeMeshletBounds (lines 243-247) go into an
unused local, so nothing is appended to CullingInfos. -/
def packMeshlet (s : MeshletArrays) (m : MeshoptMeshlet) : MeshletArrays :=
  let vertexOffset := s.Indices.length
  let primitiveOffset := s.Primitives.length
  { Indices := s.Indices ++ m.vertices
    Primitives := s.Primitives ++ m.triangles.map swapTri
    Meshlets := s.Meshlets ++
      [{ VertexCount := m.vertices.length, VertexOffset := vertexOffset,
         PrimitiveCount := m.triangles.length, PrimitiveOffset := primitiveOffset }]
    CullingInfos := s.CullingInfos }

/-- The whole meshlet loop starting from the (empty) mesh-global arrays. -/
def packMeshlets (ms : List MeshoptMeshlet) : MeshletArrays :=
  ms.foldl packMeshlet ⟨[], [], [], []⟩

/-- Group a flat index stream into consecutive corner triples. -/
def triChunks : List Nat → List (Nat × Nat × Nat)
  | a :: b :: c :: rest => (a, b, c) :: triChunks rest
  | _ => []

/-- The cluster vertex set after adding one triangle's corners. -/
def clusterVerts (vs : List Nat) (t : Nat × Nat × Nat) : List Nat :=
  addUnique (addUnique (addUnique vs t.1) t.2.1) t.2.2

/-- Local corner triple of a triangle within a cluster vertex list. -/
def localTri (vs : List Nat) (t : Nat × Nat × Nat) : Nat × Nat × Nat :=
  (idxOfV vs t.1, idxOfV vs t.2.1, idxOfV vs t.2.2)

/-- Greedy cluster-building state: finished clusters plus the open one. -/
structure BuildState where
  meshlets : List MeshoptMeshlet
  cur : MeshoptMeshlet
  deriving DecidableEq, Inhabited

/-- Add one triangle to the greedy cluster builder, flushing the open cluster
when the vertex or primitive bound would be exceeded. -/
def pushTri (maxV maxP : Nat) (st : BuildState) (t : Nat × Nat × Nat) : BuildState :=
  let nvs := clusterVerts st.cur.vertices t
  if nvs.length ≤ maxV ∧ st.cur.triangles.length + 1 ≤ maxP then
    { st with cur := ⟨nvs, st.cur.triangles ++ [localTri nvs t]⟩ }
  else
    let fresh := clusterVerts [] t
    { meshlets := st.meshlets ++ [st.cur], cur := ⟨fresh, [localTri fresh t]⟩ }

/-- Modelled from the spec: the Mesh Optimizer collaborator's
BuildMeshlets(indices, vertexCount, maxVertices, maxPrimitives) -> clusters.
The partition algorithm belongs to the collaborator; it is modelled as a
greedy partition into clusters of at most maxVertices vertices and
maxPrimitives triangles, which is all the spec promises. -/
def meshopt_buildMeshlets (indices : List Nat) (vertexCount maxV maxP : Nat) :
    List MeshoptMeshlet :=
  let st := (triChunks indices).foldl (pushTri maxV maxP) ⟨[], ⟨[], []⟩⟩
  if st.cur.triangles.isEmpty then st.meshlets else st.meshlets ++ [st.cur]

/-- asdx::ResStaticMesh, restricted to the members MeshLoader.cpp writes. -/
structure ResStaticMesh where
  Vertices : List ResMeshVertex
  Indices : List Nat
  Primitives : List ResPrimitive
  Meshlets : List ResMeshlet
  CullingInfos : List CullingInfo
  deriving DecidableEq, Inhabited

/-- asdx::ResSkinningMesh, restricted to the members MeshLoader.cpp writes. -/
structure ResSkinningMesh where
  Vertices : List ResSkinningMeshVertex
  Indices : List Nat
  Primitives : List ResPrimitive
  Meshlets : List ResMeshlet
  CullingInfos : List CullingInfo
  deriving DecidableEq, Inhabited

/-- asdx::ResModel, restricted to the members MeshLoader.cpp writes. -/
structure ResModel where
  StaticMeshes : List ResStaticMesh
  SkinningMeshes : List ResSkinningMesh
  deriving DecidableEq, Inhabited

/-- The freshly declared `asdx::ResStaticMesh dstMesh` of MeshLoader.cpp line
94 after the vertex loop of lines 100-123: vertices filled, every other array
still empty. -/
def initStaticMesh (m : AiMesh) : ResStaticMesh :=
  { Vertices := buildVertices m, Indices := [], Primitives := [], Meshlets := [],
    CullingInfos := [] }

/-- The tail of ParseStaticMesh after the face loop: the optimization block
(lines 140-201) followed by meshlet generation and packing (lines 204-263). -/
def finishStaticMesh (m : AiMesh) (dstMeshIndices0 : List Nat) : ResStaticMesh :=
  let dstMesh := initStaticMesh m
  let opt := optimizeBlock dstMesh.Vertices dstMeshIndices0 dstMesh.Indices
  let dstMesh1 := { dstMesh with Vertices := opt.vertices }
  let meshlets := meshopt_buildMeshlets opt.indices dstMesh1.Vertices.length
    kMaxVertices kMaxPrimitives
  let packed := List.foldl packMeshlet
    ⟨dstMesh1.Indices, dstMesh1.Primitives, dstMesh1.Meshlets, dstMesh1.CullingInfos⟩
    meshlets
  { dstMesh1 with
    Indices := packed.Indices
    Primitives := packed.Primitives
    Meshlets := packed.Meshlets
    CullingInfos := packed.CullingInfos }

/-- MeshLoader::ParseStaticMesh (MeshLoader.cpp lines 80-266) as a fallible
function: the conversion of one bone-less source mesh. -/
def ParseStaticMesh (pSrcMesh : AiMesh) : Except String ResStaticMesh :=
  match flattenFaces pSrcMesh.mFaces with
  | Except.error e => Except.error e
  | Except.ok dstMeshIndices => Except.ok (finishStaticMesh pSrcMesh dstMeshIndices)

/-- Per-vertex mutation `dstMesh.Vertices[weight.mVertexId]` of line 326:
apply `f` to the element at `i`, untouched when out of range. -/
def modifyAt {α : Type} (l : List α) (i : Nat) (f : α → α) : List α :=
  match l[i]? with
  | some x => l.set i (f x)
  | none => l

/-- Flatten the bone loops of MeshLoader.cpp lines 318-325 into the arrival
order of (mVertexId, boneIndex, boneWeight) contributions: bone ordinal
ascending, then per-bone weight-entry ordinal ascending. -/
def boneContribs : Nat → List (List (Nat × ℚ)) → List (Nat × Nat × ℚ)
  | _, [] => []
  | i, b :: rest => b.map (fun p => (p.1, i, p.2)) ++ boneContribs (i + 1) rest

/-- The bone-assignment loops of ParseSkinningMesh (lines 318-399): every
contribution applied to its vertex in arrival order. -/
def applyBones (verts : List ResSkinningMeshVertex) (bones : List (List (Nat × ℚ))) :
    List ResSkinningMeshVertex :=
  (boneContribs 0 bones).foldl
    (fun vs c => modifyAt vs c.1 (fun v => addBoneWeight v c.2.1 c.2.2)) verts

/-- One iteration of the skinning vertex loop (MeshLoader.cpp lines 293-316):
the static attributes plus zeroed bone index and weight slots. -/
def buildSkinVertexBase (m : AiMesh) (i : Nat) : ResSkinningMeshVertex :=
  let v := buildVertex m i
  { Position := v.Position, TexCoord0 := v.TexCoord0, TexCoord1 := v.TexCoord1,
    TexCoord2 := v.TexCoord2, TexCoord3 := v.TexCoord3,
    TangentSpace := v.TangentSpace, Color := v.Color,
    BoneIndex := ⟨0, 0, 0, 0⟩, BoneWeights := ⟨0, 0, 0, 0⟩ }

/-- The skinning vertex stream after the vertex loop and the bone loops. -/
def buildSkinVertices (m : AiMesh) : List ResSkinningMeshVertex :=
  applyBones ((List.range m.mVertices.length).map (buildSkinVertexBase m)) m.mBones

/-- The skinned counterpart of initStaticMesh (lines 285-399). -/
def initSkinningMesh (m : AiMesh) : ResSkinningMesh :=
  { Vertices := buildSkinVertices m, Indices := [], Primitives := [], Meshlets := [],
    CullingInfos := [] }

/-- The tail of ParseSkinningMesh after the face loop (lines 416-539),
line-identical to the static variant up to the vertex type. -/
def finishSkinningMesh (m : AiMesh) (dstMeshIndices0 : List Nat) : ResSkinningMesh :=
  let dstMesh := initSkinningMesh m
  let opt := optimizeBlock dstMesh.Vertices dstMeshIndices0 dstMesh.Indices
  let dstMesh1 := { dstMesh with Vertices := opt.vertices }
  let meshlets := meshopt_buildMeshlets opt.indices dstMesh1.Vertices.length
    kMaxVertices kMaxPrimitives
  let packed := List.foldl packMeshlet
    ⟨dstMesh1.Indices, dstMesh1.Primitives, dstMesh1.Meshlets, dstMesh1.CullingInfos⟩
    meshlets
  { dstMesh1 with
    Indices := packed.Indices
    Primitives := packed.Primitives
    Meshlets := packed.Meshlets
    CullingInfos := packed.CullingInfos }

/-- MeshLoader::ParseSkinningMesh (MeshLoader.cpp lines 271-542). -/
def ParseSkinningMesh (pSrcMesh : AiMesh) : Except String ResSkinningMesh :=
  match flattenFaces pSrcMesh.mFaces with
  | Except.error e => Except.error e
  | Except.ok dstMeshIndices => Except.ok (finishSkinningMesh pSrcMesh dstMeshIndices)

/-- The per-mesh dispatch loop of MeshLoader::Load (MeshLoader.cpp lines
60-67): meshes with bones go through ParseSkinningMesh, the rest through
ParseStaticMesh; each parsed record is appended to the model.  A failed
assertion aborts the remaining conversion. -/
def Load : List AiMesh → ResModel → Except String ResModel
  | [], model => Except.ok model
  | m :: rest, model =>
    if 0 < m.mBones.length then
      match ParseSkinningMesh m with
      | Except.error e => Except.error e
      | Except.ok r =>
        Load rest { model with SkinningMeshes := model.SkinningMeshes ++ [r] }
    else
      match ParseStaticMesh m with
      | Except.error e => Except.error e
      | Except.ok r =>
        Load rest { model with StaticMeshes := model.StaticMeshes ++ [r] }

/-- MeshLoader::Load over a whole imported scene, starting from an empty
asdx::ResModel. -/
def LoadScene (scene : List AiMesh) : Except String ResModel :=
  Load scene { StaticMeshes := [], SkinningMeshes := [] }

/-- Whether an Except value is a success. -/
def isOkE {ε α : Type} : Except ε α → Bool
  | Except.ok _ => true
  | Except.error _ => false

/-- A vertex with all four weight slots occupied by distinct non-zero weights
1, 2, 3, 4; its minimum slot is slot 0 with weight 1. -/
def fullSlotsVertex : ResSkinningMeshVertex :=
  { zeroSkinVertex with BoneWeights := ⟨1, 2, 3, 4⟩ }

/-- A vertex whose first three weight slots hold weight 1 and whose fourth
slot is still empty. -/
def threeFilledVertex : ResSkinningMeshVertex :=
  { zeroSkinVertex with BoneWeights := ⟨1, 1, 1, 0⟩ }

/-- The spec's bone-assignment example: weights [0.1, 0.5, 0.3, 0.05, 0.9]
from bones A, B, C, D, E numbered 0 to 4, in arrival order. -/
def exampleContribs : List (Nat × ℚ) :=
  [(0, mkRat 1 10), (1, mkRat 1 2), (2, mkRat 3 10), (3, mkRat 1 20), (4, mkRat 9 10)]

/-- The final slots the claim expects for the example:
bone indices (A, B, C, E) with weights (0.1, 0.5, 0.3, 0.9). -/
def specClaimedResult : ResSkinningMeshVertex :=
  { zeroSkinVertex with
    BoneIndex := ⟨0, 1, 2, 4⟩
    BoneWeights := ⟨mkRat 1 10, mkRat 1 2, mkRat 3 10, mkRat 9 10⟩ }

/-- The slots the source actually produces for the example: the slot-3 fill
branch writes the weight to z, so slot w never fills and D's and E's weights
both land on z.  Bone indices (A, B, C, E), weights (0.1, 0.5, 0.9, 0). -/
def codeActualResult : ResSkinningMeshVertex :=
  { zeroSkinVertex with
    BoneIndex := ⟨0, 1, 2, 4⟩
    BoneWeights := ⟨mkRat 1 10, mkRat 1 2, mkRat 9 10, 0⟩ }

/-- A single-triangle source mesh: three distinct positions, one 3-corner
face, no optional channels, no bones. -/
def triMesh : AiMesh :=
  { mVertices := [⟨0, 0, 0⟩, ⟨1, 0, 0⟩, ⟨0, 1, 0⟩]
    mNormals := [⟨0, 0, 1⟩, ⟨0, 0, 1⟩, ⟨0, 0, 1⟩]
    mTextureCoords0 := none, mTextureCoords1 := none
    mTextureCoords2 := none, mTextureCoords3 := none
    mTangents := none, mColors0 := none
    mFaces := [[0, 1, 2]]
    mBones := [] }

/-- A zero-vertex, zero-face source mesh. -/
def emptyAiMesh : AiMesh :=
  { mVertices := [], mNormals := []
    mTextureCoords0 := none, mTextureCoords1 := none
    mTextureCoords2 := none, mTextureCoords3 := none
    mTangents := none, mColors0 := none
    mFaces := [], mBones := [] }

/-- A one-vertex mesh with no color channel and no texcoord channels. -/
def colorlessMesh : AiMesh :=
  { mVertices := [⟨1, 2, 3⟩], mNormals := [⟨0, 0, 1⟩]
    mTextureCoords0 := none, mTextureCoords1 := none
    mTextureCoords2 := none, mTextureCoords3 := none
    mTangents := none, mColors0 := none
    mFaces := [], mBones := [] }

/-- A one-vertex mesh that has texcoord channel 0 but no vertex colors, no
tangents and no further texcoord channels - the typical mesh the
missing-channel policy is about. -/
def texturedColorlessMesh : AiMesh :=
  { colorlessMesh with mTextureCoords0 := some [⟨mkRat 1 2, mkRat 1 4, 0⟩] }

/-- A mesh containing a malformed two-corner face. -/
def badFaceMesh : AiMesh :=
  { triMesh with mFaces := [[0, 1, 2], [0, 1]] }

/-- A concrete single cluster: three local vertices and one triangle. -/
def oneCluster : MeshoptMeshlet := ⟨[10, 11, 12], [(0, 1, 2)]⟩

/-- The concatenation of all clusters' local vertex lists, in cluster order. -/
def flatVertsM : List MeshoptMeshlet → List Nat
  | [] => []
  | m :: rest => m.vertices ++ flatVertsM rest

/-- The concatenation of all clusters' triangle lists, in cluster order. -/
def flatTrisM : List MeshoptMeshlet → List (Nat × Nat × Nat)
  | [] => []
  | m :: rest => m.triangles ++ flatTrisM rest

/-- The meshlet descriptors the loop emits when it starts from the given
vertex and primitive offsets: counts are the cluster sizes and offsets
accumulate. -/
def descsFrom : Nat → Nat → List MeshoptMeshlet → List ResMeshlet
  | _, _, [] => []
  | vo, po, m :: rest =>
    { VertexCount := m.vertices.length, VertexOffset := vo,
      PrimitiveCount := m.triangles.length, PrimitiveOffset := po } ::
      descsFrom (vo + m.vertices.length) (po + m.triangles.length) rest

/-- The descriptors tile contiguously from the given offsets: the first one
starts at (vo, po) and each subsequent offset is the previous offset plus the
previous count. -/
def tilesFrom : Nat → Nat → List ResMeshlet → Prop
  | _, _, [] => True
  | vo, po, d :: rest =>
    d.VertexOffset = vo ∧ d.PrimitiveOffset = po ∧
    tilesFrom (vo + d.VertexCount) (po + d.PrimitiveCount) rest

lemma packMeshlet_foldl (ms : List MeshoptMeshlet) (s : MeshletArrays) :
    List.foldl packMeshlet s ms =
      { Indices := s.Indices ++ flatVertsM ms
        Primitives := s.Primitives ++ (flatTrisM ms).map swapTri
        Meshlets := s.Meshlets ++ descsFrom s.Indices.length s.Primitives.length ms
        CullingInfos := s.CullingInfos } := by
  induction ms generalizing s with
  | nil => simp [flatVertsM, flatTrisM, descsFrom]
  | cons m rest ih =>
    simp only [List.foldl_cons, ih, packMeshlet, flatVertsM, flatTrisM, descsFrom,
      List.append_assoc, List.length_append, List.length_map, List.map_append,
      List.singleton_append, List.cons_append, List.map_cons, List.nil_append]

lemma descsFrom_getElem (ms : List MeshoptMeshlet) (j : Nat) (m : MeshoptMeshlet)
    (vo po : Nat) (hm : ms[j]? = some m) :
    (descsFrom vo po ms)[j]? =
      some { VertexCount := m.vertices.length,
             VertexOffset := vo + (flatVertsM (ms.take j)).length,
             PrimitiveCount := m.triangles.length,
             PrimitiveOffset := po + (flatTrisM (ms.take j)).length } := by
  induction ms generalizing j vo po with
  | nil => simp at hm
  | cons a rest ih =>
    cases j with
    | zero =>
      simp only [List.getElem?_cons_zero, Option.some_inj] at hm
      subst hm
      simp [descsFrom, flatVertsM, flatTrisM]
    | succ j =>
      simp only [List.getElem?_cons_succ] at hm
      simp only [descsFrom, List.getElem?_cons_succ, List.take_succ_cons]
      rw [ih j _ _ hm]
      simp [flatVertsM, flatTrisM, Nat.add_assoc]

lemma flatTrisM_getElem (ms : List MeshoptMeshlet) (j : Nat) (m : MeshoptMeshlet)
    (i : Nat) (t : Nat × Nat × Nat) (hm : ms[j]? = some m)
    (ht : m.triangles[i]? = some t) :
    (flatTrisM ms)[(flatTrisM (ms.take j)).length + i]? = some t := by
  induction ms generalizing j with
  | nil => simp at hm
  | cons a rest ih =>
    cases j with
    | zero =>
      simp only [List.getElem?_cons_zero, Option.some_inj] at hm
      have hi : i < m.triangles.length := by
        by_contra hcon
        rw [List.getElem?_eq_none (Nat.le_of_not_lt hcon)] at ht
        exact Option.noConfusion ht
      subst hm
      simp only [List.take_zero, flatTrisM, List.length_nil, Nat.zero_add]
      rw [List.getElem?_append, if_pos hi]
      exact ht
    | succ j =>
      simp only [List.getElem?_cons_succ] at hm
      simp only [List.take_succ_cons, flatTrisM, List.length_append]
      rw [Nat.add_assoc, List.getElem?_append,
        if_neg (Nat.not_lt.mpr (Nat.le_add_right _ _)), Nat.add_sub_cancel_left]
      exact ih j hm

lemma descsFrom_tiles (ms : List MeshoptMeshlet) :
    ∀ vo po, tilesFrom vo po (descsFrom vo po ms) := by
  induction ms with
  | nil => intro vo po; trivial
  | cons m rest ih =>
    intro vo po
    exact ⟨rfl, rfl, ih (vo + m.vertices.length) (po + m.triangles.length)⟩

lemma descsFrom_mem (ms : List MeshoptMeshlet) :
    ∀ vo po d, d ∈ descsFrom vo po ms →
      ∃ c ∈ ms, d.VertexCount = c.vertices.length ∧
        d.PrimitiveCount = c.triangles.length := by
  induction ms with
  | nil => intro vo po d hd; simp [descsFrom] at hd
  | cons m rest ih =>
    intro vo po d hd
    rcases List.mem_cons.mp hd with rfl | hd
    · exact ⟨m, List.mem_cons_self _ _, rfl, rfl⟩
    · obtain ⟨c, hc, h1, h2⟩ := ih _ _ d hd
      exact ⟨c, List.mem_cons_of_mem _ hc, h1, h2⟩

lemma descsFrom_map_vc (ms : List MeshoptMeshlet) :
    ∀ vo po, (descsFrom vo po ms).map (fun d => d.VertexCount) =
      ms.map (fun c => c.vertices.length) := by
  induction ms with
  | nil => intro vo po; rfl
  | cons m rest ih => intro vo po; simp [descsFrom, ih]

lemma descsFrom_map_pc (ms : List MeshoptMeshlet) :
    ∀ vo po, (descsFrom vo po ms).map (fun d => d.PrimitiveCount) =
      ms.map (fun c => c.triangles.length) := by
  induction ms with
  | nil => intro vo po; rfl
  | cons m rest ih => intro vo po; simp [descsFrom, ih]

lemma flatVertsM_length (ms : List MeshoptMeshlet) :
    (flatVertsM ms).length = (ms.map (fun c => c.vertices.length)).sum := by
  induction ms with
  | nil => rfl
  | cons m rest ih => simp [flatVertsM, ih]

lemma flatTrisM_length (ms : List MeshoptMeshlet) :
    (flatTrisM ms).length = (ms.map (fun c => c.triangles.length)).sum := by
  induction ms with
  | nil => rfl
  | cons m rest ih => simp [flatTrisM, ih]

lemma flattenFaces_err (faces : List (List Nat)) :
    (∃ f ∈ faces, f.length ≠ 3) → isOkE (flattenFaces faces) = false := by
  induction faces with
  | nil => intro h; simp at h
  | cons g rest ih =>
    intro h
    obtain ⟨f, hf, hlen⟩ := h
    rcases List.mem_cons.mp hf with rfl | hf
    · simp [flattenFaces, if_neg hlen, isOkE]
    · by_cases hg : g.length = 3
      · have hrest := ih ⟨f, hf, hlen⟩
        cases hrec : flattenFaces rest with
        | error e => simp [flattenFaces, hg, hrec, isOkE]
        | ok l => rw [hrec] at hrest; simp [isOkE] at hrest
      · simp [flattenFaces, hg, isOkE]

lemma flattenFaces_ok (faces : List (List Nat)) :
    (∀ f ∈ faces, f.length = 3) → ∃ l, flattenFaces faces = Except.ok l := by
  induction faces with
  | nil => intro h; exact ⟨[], rfl⟩
  | cons g rest ih =>
    intro h
    obtain ⟨l, hl⟩ := ih (fun f hf => h f (List.mem_cons_of_mem _ hf))
    refine ⟨g.getD 0 0 :: g.getD 1 0 :: g.getD 2 0 :: l, ?_⟩
    simp [flattenFaces, h g (List.mem_cons_self _ _), hl]

lemma ParseStaticMesh_err (m : AiMesh) (h : ∃ f ∈ m.mFaces, f.length ≠ 3) :
    isOkE (ParseStaticMesh m) = false := by
  have := flattenFaces_err m.mFaces h
  cases hfl : flattenFaces m.mFaces with
  | error e => simp [ParseStaticMesh, hfl, isOkE]
  | ok l => rw [hfl] at this; simp [isOkE] at this

lemma ParseSkinningMesh_err (m : AiMesh) (h : ∃ f ∈ m.mFaces, f.length ≠ 3) :
    isOkE (ParseSkinningMesh m) = false := by
  have := flattenFaces_err m.mFaces h
  cases hfl : flattenFaces m.mFaces with
  | error e => simp [ParseSkinningMesh, hfl, isOkE]
  | ok l => rw [hfl] at this; simp [isOkE] at this

lemma Load_err (scene : List AiMesh) :
    ∀ model : ResModel, (∃ m ∈ scene, ∃ f ∈ m.mFaces, f.length ≠ 3) →
      isOkE (Load scene model) = false := by
  induction scene with
  | nil => intro model h; simp at h
  | cons a rest ih =>
    intro model h
    obtain ⟨m, hm, f, hf, hlen⟩ := h
    rcases List.mem_cons.mp hm with rfl | hm
    · by_cases hb : 0 < m.mBones.length
      · have herr := ParseSkinningMesh_err m ⟨f, hf, hlen⟩
        cases hp : ParseSkinningMesh m with
        | error e => simp [Load, hb, hp, isOkE]
        | ok r => rw [hp] at herr; simp [isOkE] at herr
      · have herr := ParseStaticMesh_err m ⟨f, hf, hlen⟩
        cases hp : ParseStaticMesh m with
        | error e => simp [Load, hb, hp, isOkE]
        | ok r => rw [hp] at herr; simp [isOkE] at herr
    · by_cases hb : 0 < a.mBones.length
      · cases hp : ParseSkinningMesh a with
        | error e => simp [Load, hb, hp, isOkE]
        | ok r => simp only [Load, if_pos hb, hp]; exact ih _ ⟨m, hm, f, hf, hlen⟩
      · cases hp : ParseStaticMesh a with
        | error e => simp [Load, hb, hp, isOkE]
        | ok r => simp only [Load, if_neg hb, hp]; exact ih _ ⟨m, hm, f, hf, hlen⟩

lemma Load_ok (scene : List AiMesh) :
    ∀ model : ResModel, (∀ m ∈ scene, ∀ f ∈ m.mFaces, f.length = 3) →
      (Load scene model).map
          (fun r => r.StaticMeshes.length + r.SkinningMeshes.length) =
        Except.ok
          (model.StaticMeshes.length + model.SkinningMeshes.length + scene.length) := by
  induction scene with
  | nil => intro model h; simp [Load, Except.map]
  | cons a rest ih =>
    intro model h
    have ha := h a (List.mem_cons_self _ _)
    have hrest : ∀ m ∈ rest, ∀ f ∈ m.mFaces, f.length = 3 :=
      fun m hm => h m (List.mem_cons_of_mem _ hm)
    obtain ⟨l, hl⟩ := flattenFaces_ok a.mFaces ha
    by_cases hb : 0 < a.mBones.length
    · have hp : ParseSkinningMesh a = Except.ok (finishSkinningMesh a l) := by
        simp [ParseSkinningMesh, hl]
      simp only [Load, if_pos hb, hp]
      rw [ih _ hrest]
      simp [List.length_append]
      omega
    · have hp : ParseStaticMesh a = Except.ok (finishStaticMesh a l) := by
        simp [ParseStaticMesh, hl]
      simp only [Load, if_neg hb, hp]
      rw [ih _ hrest]
      simp [List.length_append]
      omega

/-- Claim C1, counterexample.  The claim is false on the code at two concrete
points: (1) with all four slots holding non-zero weights 1, 2, 3, 4, an
incoming contribution of weight 1 equals the minimum, so the claim says it is
discarded, but the source (line 374: `if (mini > boneWeight) continue`)
overwrites slot 0 instead; (2) the spec's example run [0.1, 0.5, 0.3, 0.05,
0.9] does not end in slots (A 0.1, B 0.5, C 0.3, E 0.9), because the slot-3
fill branch (line 350) writes its weight to z. -/
theorem bone_evict_claim_false :
    addBoneWeight fullSlotsVertex 9 1 ≠ fullSlotsVertex ∧
    accumBoneWeights zeroSkinVertex exampleContribs ≠ specClaimedResult := by
  decide

/-- Claim C1, amended.  When all four weight slots of a vertex are non-zero,
an incoming (boneIndex, weight) contribution whose weight is strictly less
than the current minimum slot weight is discarded, and one whose weight is
greater than or equal overwrites the minimum-weight slot (minimum found
scanning slots 0,1,2,3 with strictly-less-than comparisons so earlier slots
win ties); the example run [0.1, 0.5, 0.3, 0.05, 0.9] from bones A..E ends
with bone indices (A, B, C, E) and stored weights (0.1, 0.5, 0.9, 0), since
the fourth contribution fills slot 3's index but writes its weight to z. -/
theorem bone_evict_amended (v : ResSkinningMeshVertex) (b : Nat) (w : ℚ)
    (hx : v.BoneWeights.x ≠ 0) (hy : v.BoneWeights.y ≠ 0)
    (hz : v.BoneWeights.z ≠ 0) (hw : v.BoneWeights.w ≠ 0) :
    (w < (minScan v.BoneWeights).1 → addBoneWeight v b w = v) ∧
    ((minScan v.BoneWeights).1 ≤ w →
      addBoneWeight v b w = setSlot v (minScan v.BoneWeights).2 b w) ∧
    accumBoneWeights zeroSkinVertex exampleContribs = codeActualResult := by
  refine ⟨?_, ?_, by decide⟩
  · intro h
    simp only [addBoneWeight, if_neg hx, if_neg hy, if_neg hz, if_neg hw]
    rw [if_pos h]
  · intro h
    simp only [addBoneWeight, if_neg hx, if_neg hy, if_neg hz, if_neg hw]
    rw [if_neg (not_lt.mpr h)]
    rfl

/-- Claim C1, witness: the amended theorem applied to the full vertex with
weights (1, 2, 3, 4) receiving bone 9 with weight 5, which overwrites the
minimum slot 0. -/
theorem bone_evict_amended_witness :
    addBoneWeight fullSlotsVertex 9 5 = setSlot fullSlotsVertex 0 9 5 :=
  (bone_evict_amended fullSlotsVertex 9 5 (by decide) (by decide) (by decide)
    (by decide)).2.1 (by decide)

/-- Claim C2: evaluation at the failing input.  A vertex whose slots 0-2 are
occupied (weights 1, 1, 1) and whose slot 3 is empty receives bone 7 with
weight 2; the source's fourth fill branch (lines 347-351) stores the bone
index in slot 3 but writes the weight to z: Index3 becomes 7 while the w
weight stays 0 and the z weight is overwritten with 2, so the stored bone
index and weight do not belong to the same slot. -/
theorem bone_fill_slot3_bug :
    (addBoneWeight threeFilledVertex 7 2).BoneIndex.Index3 = 7 ∧
    (addBoneWeight threeFilledVertex 7 2).BoneWeights.w = 0 ∧
    (addBoneWeight threeFilledVertex 7 2).BoneWeights.z = 2 := by
  decide

/-- Claim C3: evaluation at the failing input.  For a single-triangle mesh
with three distinct vertices and raw index list [0, 1, 2], the optimization
block sizes its remap and remapped-index vectors from dstMesh.Indices (empty
at that point, lines 141 and 153) instead of dstMeshIndices, then resizes the
raw index list to the empty remapped buffer (line 176): the index list comes
out empty rather than keeping one entry per original face corner, and the
parsed mesh ends with no indices, no primitives and no meshlets. -/
theorem dedup_remap_zero_sized :
    (optimizeBlock (buildVertices triMesh) [0, 1, 2]
      (initStaticMesh triMesh).Indices).indices = [] ∧
    (ParseStaticMesh triMesh).map
        (fun r => (r.Vertices.length, r.Indices, r.Primitives, r.Meshlets)) =
      Except.ok (3, [], [], []) := by
  decide

/-- Claim C4: for every cluster handed to the meshlet loop and every local
triangle (c0, c1, c2) of that cluster, the Primitive appended to the
mesh-global Primitives array (located through the meshlet descriptor's
PrimitiveOffset) stores c1 in Index0, c0 in Index1 and c2 in Index2
(MeshLoader.cpp lines 237-239 and 513-515). -/
theorem primitive_corner_swap (ms : List MeshoptMeshlet) (j i : Nat)
    (m : MeshoptMeshlet) (t : Nat × Nat × Nat)
    (hm : ms[j]? = some m) (ht : m.triangles[i]? = some t) :
    ∃ desc : ResMeshlet, (packMeshlets ms).Meshlets[j]? = some desc ∧
      (packMeshlets ms).Primitives[desc.PrimitiveOffset + i]? =
        some { Index0 := t.2.1, Index1 := t.1, Index2 := t.2.2 } := by
  rw [packMeshlets, packMeshlet_foldl]
  simp only [List.nil_append, List.length_nil]
  refine ⟨{ VertexCount := m.vertices.length,
            VertexOffset := (flatVertsM (ms.take j)).length,
            PrimitiveCount := m.triangles.length,
            PrimitiveOffset := (flatTrisM (ms.take j)).length }, ?_, ?_⟩
  · simpa using descsFrom_getElem ms j m 0 0 hm
  · rw [List.getElem?_map, flatTrisM_getElem ms j m i t hm ht]
    rfl

/-- Claim C4, witness: one cluster with vertices [10, 11, 12] and the single
local triangle (0, 1, 2) yields the primitive (Index0 1, Index1 0, Index2 2)
at offset 0. -/
theorem primitive_corner_swap_witness :
    ∃ desc : ResMeshlet, (packMeshlets [oneCluster]).Meshlets[0]? = some desc ∧
      (packMeshlets [oneCluster]).Primitives[desc.PrimitiveOffset + 0]? =
        some { Index0 := 1, Index1 := 0, Index2 := 2 } :=
  primitive_corner_swap [oneCluster] 0 0 oneCluster (0, 1, 2) (by decide) (by decide)

/-- Claim C5: evaluation at the failing input together with the general fact.
The meshlet loop never appends to the CullingInfos array for any cluster list:
the bounds computed by meshopt_computeMeshletBounds on lines 243-247 (and
519-523) land in an unused local and are discarded, so a cluster list that
emits one meshlet still emits zero culling records. -/
theorem culling_info_never_stored :
    (∀ ms : List MeshoptMeshlet, (packMeshlets ms).CullingInfos = []) ∧
    (packMeshlets [oneCluster]).Meshlets.length = 1 ∧
    (packMeshlets [oneCluster]).CullingInfos.length = 0 := by
  refine ⟨fun ms => ?_, by decide, by decide⟩
  rw [packMeshlets, packMeshlet_foldl]

/-- Claim C6, counterexample.  For a one-vertex mesh with no vertex colors,
the per-vertex color data is not an empty stream: the combined vertex stream
has one entry whose Color field holds the packed default white (1, 1, 1, 1)
(MeshLoader.cpp lines 111 and 122), so the color destination is filled with a
default value instead of being left at zero length. -/
theorem color_stream_claim_false :
    (buildVertices colorlessMesh).map (fun v => v.Color) =
      [ToUnorm ⟨1, 1, 1, 1⟩] ∧
    (buildVertices colorlessMesh).length ≠ 0 := by
  decide

lemma buildVertices_field_replicate {β : Type} (m : AiMesh)
    (f : ResMeshVertex → β) (b : β) (hf : ∀ i, f (buildVertex m i) = b) :
    (buildVertices m).map f = List.replicate m.mVertices.length b := by
  rw [List.eq_replicate_iff]
  constructor
  · simp [buildVertices]
  · intro x hx
    simp only [buildVertices, List.map_map, List.mem_map] at hx
    obtain ⟨i, hi, rfl⟩ := hx
    exact hf i

/-- Claim C6, amended.  Each absent optional channel is independently
substituted with a per-vertex default inside the single combined vertex
stream, which always has one entry per source vertex: with no color channel
every vertex's Color field is the packed white (1, 1, 1, 1); with texcoord
channel 0, 1, 2 or 3 absent, that vertex field is the encoding of (0, 0);
with no tangents, the tangent part of every encoded tangent frame is the zero
vector; no zero-length channel array exists because the attributes are not
stored as separate streams. -/
theorem missing_channel_defaults (m : AiMesh) :
    (buildVertices m).length = m.mVertices.length ∧
    (m.mColors0 = none →
      (buildVertices m).map (fun v => v.Color) =
        List.replicate m.mVertices.length (ToUnorm ⟨1, 1, 1, 1⟩)) ∧
    (m.mTextureCoords0 = none →
      (buildVertices m).map (fun v => v.TexCoord0) =
        List.replicate m.mVertices.length (EncodeTexCoord ⟨0, 0⟩)) ∧
    (m.mTextureCoords1 = none →
      (buildVertices m).map (fun v => v.TexCoord1) =
        List.replicate m.mVertices.length (EncodeTexCoord ⟨0, 0⟩)) ∧
    (m.mTextureCoords2 = none →
      (buildVertices m).map (fun v => v.TexCoord2) =
        List.replicate m.mVertices.length (EncodeTexCoord ⟨0, 0⟩)) ∧
    (m.mTextureCoords3 = none →
      (buildVertices m).map (fun v => v.TexCoord3) =
        List.replicate m.mVertices.length (EncodeTexCoord ⟨0, 0⟩)) ∧
    (m.mTangents = none →
      (buildVertices m).map (fun v => v.TangentSpace.tangent) =
        List.replicate m.mVertices.length zero3D) := by
  refine ⟨by simp [buildVertices], ?_, ?_, ?_, ?_, ?_, ?_⟩
  · intro h
    exact buildVertices_field_replicate m _ _
      (fun i => by simp [buildVertex, optColorAt, h, white])
  · intro h
    exact buildVertices_field_replicate m _ _
      (fun i => by simp [buildVertex, optVec3At, h, zero3D])
  · intro h
    exact buildVertices_field_replicate m _ _
      (fun i => by simp [buildVertex, optVec3At, h, zero3D])
  · intro h
    exact buildVertices_field_replicate m _ _
      (fun i => by simp [buildVertex, optVec3At, h, zero3D])
  · intro h
    exact buildVertices_field_replicate m _ _
      (fun i => by simp [buildVertex, optVec3At, h, zero3D])
  · intro h
    exact buildVertices_field_replicate m _ _
      (fun i => by simp [buildVertex, EncodeTBN, optVec3At, h, zero3D])

/-- Claim C6, witness: the amended theorem applied to a one-vertex mesh that
has texcoord channel 0 but no vertex colors, no texcoord channel 1 and no
tangents - the color, the second texcoord channel and the tangent part all
come out as per-vertex defaults while the stream keeps one entry per
vertex. -/
theorem missing_channel_defaults_witness :
    (buildVertices texturedColorlessMesh).length =
      texturedColorlessMesh.mVertices.length ∧
    (buildVertices texturedColorlessMesh).map (fun v => v.Color) =
      List.replicate texturedColorlessMesh.mVertices.length
        (ToUnorm ⟨1, 1, 1, 1⟩) ∧
    (buildVertices texturedColorlessMesh).map (fun v => v.TexCoord1) =
      List.replicate texturedColorlessMesh.mVertices.length
        (EncodeTexCoord ⟨0, 0⟩) ∧
    (buildVertices texturedColorlessMesh).map (fun v => v.TangentSpace.tangent) =
      List.replicate texturedColorlessMesh.mVertices.length zero3D :=
  ⟨(missing_channel_defaults texturedColorlessMesh).1,
   (missing_channel_defaults texturedColorlessMesh).2.1 rfl,
   (missing_channel_defaults texturedColorlessMesh).2.2.2.1 rfl,
   (missing_channel_defaults texturedColorlessMesh).2.2.2.2.2.2 rfl⟩

/-- Claim C7: every meshlet descriptor emitted by the meshlet loop has
VertexCount at most 64 and PrimitiveCount at most 124, provided each cluster
returned by the Mesh Optimizer respects the configured kMaxVertices = 64 and
kMaxPrimitives = 124 bounds it was called with (lines 205-206 and 481-482),
which is the collaborator's contract in the spec. -/
theorem meshlet_bounds (ms : List MeshoptMeshlet)
    (hms : ∀ c ∈ ms, c.vertices.length ≤ kMaxVertices ∧
      c.triangles.length ≤ kMaxPrimitives)
    (d : ResMeshlet) (hd : d ∈ (packMeshlets ms).Meshlets) :
    d.VertexCount ≤ 64 ∧ d.PrimitiveCount ≤ 124 := by
  rw [packMeshlets, packMeshlet_foldl] at hd
  simp only [List.nil_append, List.length_nil] at hd
  obtain ⟨c, hc, h1, h2⟩ := descsFrom_mem ms 0 0 d hd
  have hb := hms c hc
  simp only [kMaxVertices, kMaxPrimitives] at hb
  exact ⟨h1 ▸ hb.1, h2 ▸ hb.2⟩

/-- Claim C7, witness: the bound theorem applied to the one-cluster list. -/
theorem meshlet_bounds_witness :
    (⟨3, 0, 1, 0⟩ : ResMeshlet).VertexCount ≤ 64 ∧
    (⟨3, 0, 1, 0⟩ : ResMeshlet).PrimitiveCount ≤ 124 :=
  meshlet_bounds [oneCluster] (by decide) ⟨3, 0, 1, 0⟩ (by decide)

/-- Claim C8: if any mesh of the scene contains a face whose corner count is
not 3, the assertion on MeshLoader.cpp line 132 (or 408) fires, the mesh's
conversion fails, and the whole scene conversion aborts with an error, so no
Model is produced (the assertion is modelled as a fatal check). -/
theorem malformed_face_aborts (scene : List AiMesh) (m : AiMesh) (f : List Nat)
    (hm : m ∈ scene) (hf : f ∈ m.mFaces) (hlen : f.length ≠ 3) :
    isOkE (LoadScene scene) = false :=
  Load_err scene _ ⟨m, hm, f, hf, hlen⟩

/-- Claim C8, witness: a scene holding one mesh with a two-corner face fails
to load. -/
theorem malformed_face_aborts_witness : isOkE (LoadScene [badFaceMesh]) = false :=
  malformed_face_aborts [badFaceMesh] badFaceMesh [0, 1] (by decide) (by decide)
    (by decide)

/-- Claim C9, counterexample.  A scene whose only mesh has zero vertices and
zero faces is not skipped: MeshLoader::Load (lines 60-67) dispatches every
mesh unconditionally, there is no warning path, and the conversion produces a
(degenerate, empty) static mesh record for it - one record, not zero. -/
theorem empty_mesh_claim_false :
    (LoadScene [emptyAiMesh]).map (fun r => r.StaticMeshes.length) =
      Except.ok 1 := by
  decide

/-- Claim C9, amended.  A zero-vertex or zero-face mesh is not fatal, but it
is not skipped either and no warning exists: every mesh of a scene whose
faces are all triangles is converted and contributes exactly one mesh record
to the model, zero-size meshes included. -/
theorem empty_mesh_not_skipped (scene : List AiMesh)
    (h : ∀ m ∈ scene, ∀ f ∈ m.mFaces, f.length = 3) :
    (LoadScene scene).map
        (fun r => r.StaticMeshes.length + r.SkinningMeshes.length) =
      Except.ok scene.length := by
  have hload := Load_ok scene ⟨[], []⟩ h
  simpa [LoadScene] using hload

/-- Claim C9, witness: the amended theorem applied to a scene holding the
empty mesh and a single-triangle mesh: both yield records and the load
succeeds. -/
theorem empty_mesh_not_skipped_witness :
    (LoadScene [emptyAiMesh, triMesh]).map
        (fun r => r.StaticMeshes.length + r.SkinningMeshes.length) =
      Except.ok 2 :=
  empty_mesh_not_skipped [emptyAiMesh, triMesh] (by decide)

/-- Claim C10: the meshlets emitted by the meshlet loop tile the mesh-global
arrays contiguously and in order: the first descriptor has VertexOffset 0 and
PrimitiveOffset 0, each subsequent offset is the previous offset plus the
previous count (lines 228-229 record the running array sizes as offsets), and
the final Indices and Primitives lengths are the sums of all VertexCounts and
all PrimitiveCounts. -/
theorem meshlet_tiling (ms : List MeshoptMeshlet) :
    tilesFrom 0 0 (packMeshlets ms).Meshlets ∧
    (packMeshlets ms).Indices.length =
      ((packMeshlets ms).Meshlets.map (fun d => d.VertexCount)).sum ∧
    (packMeshlets ms).Primitives.length =
      ((packMeshlets ms).Meshlets.map (fun d => d.PrimitiveCount)).sum := by
  rw [packMeshlets, packMeshlet_foldl]
  simp only [List.nil_append, List.length_nil]
  refine ⟨descsFrom_tiles ms 0 0, ?_, ?_⟩
  · rw [descsFrom_map_vc, flatVertsM_length]
  · rw [descsFrom_map_pc, List.length_map, flatTrisM_length]
